import Mathlib

/-!
Verification of the pymeasure instrument-driver repository
(little-tesla/pymeasure): a shallow embedding of the SCPI instrument
drivers (agilent34401A.py, agilent53131A.py, hp66312A.py, acs400.py) and
of the experiment parameter containers (experiment/parameters.py),
together with theorems settling the specification claims about them.

Python values are modelled by the inductive type PyVal; Python floats are
modelled as rationals (finite values), machine-precision rounding being
immaterial to the properties proved here.  Python exceptions are modelled
by the Except monad with an explicit error kind (PyErr).
-/

/-- Model of a Python value as used by this repository: ints, floats
(modelled as rationals), bools, strings, lists and None. -/
inductive PyVal where
  | int (n : Int)
  | float (q : ℚ)
  | bool (b : Bool)
  | str (s : String)
  | list (xs : List PyVal)
  | none
deriving Repr

/-- Model of the Python exceptions raised by this code base. -/
inductive PyErr where
  | valueError (msg : String)
  | typeError (msg : String)
  | indexError (msg : String)
  | keyError (msg : String)
deriving Repr, DecidableEq

deriving instance DecidableEq for Except

mutual
/-- Python equality (the == operator) on modelled values: numeric types
compare by value (so True == 1 and 0 == False == 0.0), strings and None
compare structurally, and lists compare elementwise. -/
def pyEq : PyVal → PyVal → Bool
  | .int m, .int n => m == n
  | .int m, .bool b => m == (if b then 1 else 0)
  | .int m, .float q => (m : ℚ) == q
  | .bool a, .bool b => a == b
  | .bool b, .int n => (if b then (1 : Int) else 0) == n
  | .bool b, .float q => ((if b then (1 : Int) else 0) : ℚ) == q
  | .float p, .float q => p == q
  | .float q, .int n => q == (n : ℚ)
  | .float q, .bool b => q == ((if b then (1 : Int) else 0) : ℚ)
  | .str s, .str t => s == t
  | .none, .none => true
  | .list xs, .list ys => pyEqList xs ys
  | _, _ => false

/-- Elementwise Python equality of two lists of values. -/
def pyEqList : List PyVal → List PyVal → Bool
  | [], [] => true
  | x :: xs, y :: ys => pyEq x y && pyEqList xs ys
  | _, _ => false
end

/-- Python truthiness, as computed by bool(): zero numbers, empty strings,
empty lists and None are falsy, everything else is truthy.  For the types
modelled here bool() always succeeds (in particular it never raises
ValueError). -/
def py_bool : PyVal → Bool
  | .int n => n != 0
  | .float q => q != 0
  | .bool b => b
  | .str s => s != ""
  | .list xs => !xs.isEmpty
  | .none => false

/-- The printable name of the Python type of a value, as produced by
str(type(v)). -/
def pyTypeStr : PyVal → String
  | .int _ => "<class 'int'>"
  | .float _ => "<class 'float'>"
  | .bool _ => "<class 'bool'>"
  | .str _ => "<class 'str'>"
  | .list _ => "<class 'list'>"
  | .none => "<class 'NoneType'>"

/-- Accumulate a run of decimal digits into a natural number. -/
def digitsAcc (acc : Nat) : List Char → Option Nat
  | [] => some acc
  | c :: cs =>
      if c.isDigit then digitsAcc (acc * 10 + (c.toNat - 48)) cs
      else Option.none

/-- Parse a nonempty all-digit character list as a natural number. -/
def parseDigits : List Char → Option Nat
  | [] => Option.none
  | cs => digitsAcc 0 cs

/-- The natural number denoted by a digit list (junk digits ignored);
used after the digits have been recognised. -/
def digitsVal (cs : List Char) : Nat :=
  cs.foldl (fun a c => a * 10 + (c.toNat - 48)) 0

/-- Model of Python int(s) on a string: an optional sign followed by a
nonempty run of decimal digits; anything else raises ValueError
(modelled as Option.none). -/
def parse_int_string (s : String) : Option Int :=
  match s.data with
  | '+' :: cs => (parseDigits cs).map Int.ofNat
  | '-' :: cs => (parseDigits cs).map (fun n => -(n : Int))
  | cs => (parseDigits cs).map Int.ofNat

/-- Scale a rational by ten to an integer power.  Written with mkRat and
divInt (rather than field operations) so that concrete instances evaluate
by kernel reduction. -/
def scale10 (q : ℚ) (neg : Bool) (k : Nat) : ℚ :=
  if neg then Rat.divInt q.num (q.den * (10 ^ k : Nat))
  else Rat.divInt (q.num * ((10 ^ k : Nat) : Int)) q.den

/-- Parse an optional exponent part (e or E, optional sign, digits) and
apply it to the already-parsed mantissa. -/
def parse_exp_part (mant : ℚ) : List Char → Option ℚ
  | [] => some mant
  | c :: cs =>
      if c = 'e' ∨ c = 'E' then
        match cs with
        | '+' :: ds => (parseDigits ds).map (scale10 mant false)
        | '-' :: ds => (parseDigits ds).map (scale10 mant true)
        | ds => (parseDigits ds).map (scale10 mant false)
      else Option.none

/-- Parse an unsigned decimal literal (digits, optional fractional part,
optional exponent) into a rational. -/
def parse_ufloat (cs : List Char) : Option ℚ :=
  let ip := cs.takeWhile Char.isDigit
  let rest := cs.dropWhile Char.isDigit
  match rest with
  | '.' :: rest2 =>
      let fp := rest2.takeWhile Char.isDigit
      let rest3 := rest2.dropWhile Char.isDigit
      if ip.isEmpty && fp.isEmpty then Option.none
      else
        parse_exp_part (mkRat (digitsVal (ip ++ fp)) (10 ^ fp.length)) rest3
  | _ =>
      if ip.isEmpty then Option.none
      else parse_exp_part (mkRat (digitsVal ip) 1) rest

/-- Model of Python float(s) on a string: optional sign then a decimal
literal.  Infinities and NaN are outside the model (they do not occur in
the claims about this code base). -/
def parse_float_string (s : String) : Option ℚ :=
  match s.data with
  | '+' :: cs => parse_ufloat cs
  | '-' :: cs => (parse_ufloat cs).map Neg.neg
  | cs => parse_ufloat cs

/-- Model of Python int(v): ints unchanged, bools to 0/1, floats
truncated toward zero, strings parsed (ValueError on failure), and
TypeError on lists and None. -/
def py_int : PyVal → Except PyErr Int
  | .int n => .ok n
  | .bool b => .ok (if b then 1 else 0)
  | .float q => .ok (q.num.tdiv q.den)
  | .str s =>
      match parse_int_string s with
      | some n => .ok n
      | Option.none =>
          .error (.valueError ("invalid literal for int() with base 10: " ++ s))
  | .list _ => .error (.typeError "int() argument must not be a list")
  | .none => .error (.typeError "int() argument must not be NoneType")

/-- Model of Python float(v): floats unchanged, ints and bools converted
exactly, strings parsed (ValueError on failure), and TypeError on lists
and None. -/
def py_float : PyVal → Except PyErr ℚ
  | .float q => .ok q
  | .int n => .ok (n : ℚ)
  | .bool b => .ok (if b then 1 else 0)
  | .str s =>
      match parse_float_string s with
      | some q => .ok q
      | Option.none =>
          .error (.valueError ("could not convert string to float: " ++ s))
  | .list _ => .error (.typeError "float() argument must not be a list")
  | .none => .error (.typeError "float() argument must not be NoneType")

/-- The textual instrument bus: the log of command strings written so far
(in order) and the queue of pending reply lines the instrument will give
to subsequent queries. -/
structure Bus where
  log : List String
  replies : List String
deriving Repr, DecidableEq

/-- Modelled from the spec: Instrument.write (base class not under src/).
Writing a command appends exactly that ASCII string to the bus. -/
def Bus.write (bus : Bus) (command : String) : Bus :=
  { bus with log := bus.log ++ [command] }

/-- Modelled from the spec: Instrument.ask (base class not under src/).
A query writes the command and reads the next single-line reply; with no
pending reply the exchange does not complete (Option.none). -/
def Bus.ask (bus : Bus) (command : String) : Option (String × Bus) :=
  match bus.replies with
  | [] => Option.none
  | r :: rs => some (r, { log := bus.log ++ [command], replies := rs })

/-- Split a character list at every comma (helper for the str.split
model). -/
def splitCommaAux : List Char → List Char → List String
  | [], acc => [String.mk acc.reverse]
  | c :: cs, acc =>
      if c = ',' then String.mk acc.reverse :: splitCommaAux cs []
      else splitCommaAux cs (c :: acc)

/-- Python str.split on a comma: the empty string yields one empty
field, and every comma separates two fields. -/
def splitComma (s : String) : List String :=
  splitCommaAux s.data []

/-- Modelled from the spec: Instrument.values (base class not under
src/).  It performs a query and splits the single-line textual reply on
commas into a list of textual fields. -/
def Bus.values (bus : Bus) (command : String) : Option (List String × Bus) :=
  match bus.ask command with
  | some (r, bus2) => some (splitComma r, bus2)
  | Option.none => Option.none

/-- Modelled from the spec: the strict_discrete_set validator
(validators module not under src/).  It returns the value unchanged when
it is a member of the declared discrete set and raises ValueError
otherwise. -/
def strict_discrete_set (value : PyVal) (values : List PyVal) :
    Except PyErr PyVal :=
  if values.any (fun k => pyEq k value) then .ok value
  else .error (.valueError "Value is not in the discrete set")

/-- Insertion into a Python dict modelled as an association list: a key
equal (by Python ==) to an existing key overwrites that entry in place,
a new key is appended. -/
def dict_insert (d : List (PyVal × String)) (k : PyVal) (v : String) :
    List (PyVal × String) :=
  if d.any (fun kv => pyEq kv.1 k) then
    d.map (fun kv => if pyEq kv.1 k then (kv.1, v) else kv)
  else d ++ [(k, v)]

/-- Lookup in a Python dict modelled as an association list. -/
def dict_get (d : List (PyVal × String)) (k : PyVal) : Option String :=
  match d.find? (fun kv => pyEq kv.1 k) with
  | some kv => some kv.2
  | Option.none => Option.none

/-- Substitute the %s placeholder of a format character list. -/
def substS (arg : String) : List Char → List Char
  | '%' :: 's' :: rest => arg.data ++ substS arg rest
  | c :: rest => c :: substS arg rest
  | [] => []

/-- Python percent-formatting of a %s placeholder. -/
def pyFormatS (fmt arg : String) : String :=
  String.mk (substS arg fmt.data)

/-- Modelled from the spec: Instrument.setting (base class not under
src/), the declarative setter descriptor with map_values=True.  Assigning
a value validates it against the keys of the value-mapping dict, maps it
through the dict and writes the formatted command; a validation failure
raises and writes nothing. -/
def Instrument.setting (set_command : String) (values : List (PyVal × String))
    (value : PyVal) (bus : Bus) : Except PyErr Unit × Bus :=
  match strict_discrete_set value (values.map Prod.fst) with
  | .error e => (.error e, bus)
  | .ok v2 =>
      match dict_get values v2 with
      | some s => (.ok (), bus.write (pyFormatS set_command s))
      | Option.none => (.error (.keyError "value not in mapping"), bus)

/-- Modelled from the spec: Instrument.measurement (base class not under
src/), the declarative read-only property.  Each read sends the fixed
query string and parses the single-line textual response into a number
(Option.none inside when the response is not numeric). -/
def Instrument.measurement (get_command : String) (bus : Bus) :
    Option (Option ℚ × Bus) :=
  match bus.ask get_command with
  | some (r, bus2) => some (parse_float_string r, bus2)
  | Option.none => Option.none

/-- The driver object for the Agilent 34401A multimeter: the fields set
by its constructor (the adapter handle and the instrument name). -/
structure Agilent34401A where
  adapter : Nat
  name : String
deriving Repr, DecidableEq

/-- ONOFF_MAPPING of agilent34401A.py, built up by Python dict insertion
in source order: True to ON, False to OFF, 1 to ON, 0 to OFF (1 and 0
collapse onto the keys True and False under Python ==). -/
def Agilent34401A.ONOFF_MAPPING : List (PyVal × String) :=
  dict_insert (dict_insert (dict_insert (dict_insert []
    (.bool true) "ON") (.bool false) "OFF") (.int 1) "ON") (.int 0) "OFF"

/-- The display setting of the Agilent 34401A: Instrument.setting with
command DISP:ENABLE, the strict_discrete_set validator and
ONOFF_MAPPING. -/
def Agilent34401A.display (value : PyVal) (bus : Bus) :
    Except PyErr Unit × Bus :=
  Instrument.setting "DISP:ENABLE %s" Agilent34401A.ONOFF_MAPPING value bus

/-- The voltage_dc measurement property of the Agilent 34401A.  The
driver object is threaded through unchanged: the descriptor getter only
exchanges text on the bus. -/
def Agilent34401A.voltage_dc (inst : Agilent34401A) (bus : Bus) :
    Option (Option ℚ × Agilent34401A × Bus) :=
  match Instrument.measurement "MEAS:VOLT:DC? DEF,DEF" bus with
  | some (x, bus2) => some (x, inst, bus2)
  | Option.none => Option.none

/-- The current_ac measurement property of the Agilent 34401A. -/
def Agilent34401A.current_ac (inst : Agilent34401A) (bus : Bus) :
    Option (Option ℚ × Agilent34401A × Bus) :=
  match Instrument.measurement "MEAS:CURR:AC? DEF,DEF" bus with
  | some (x, bus2) => some (x, inst, bus2)
  | Option.none => Option.none

/-- The resistance measurement property of the Agilent 34401A. -/
def Agilent34401A.resistance (inst : Agilent34401A) (bus : Bus) :
    Option (Option ℚ × Agilent34401A × Bus) :=
  match Instrument.measurement "MEAS:RES? DEF,DEF" bus with
  | some (x, bus2) => some (x, inst, bus2)
  | Option.none => Option.none

/-- The driver object for the HP 66312A source, as set by its
constructor. -/
structure HP66312A where
  adapter : Nat
  name : String
deriving Repr, DecidableEq

/-- The meas_voltage_dc measurement property of the HP 66312A. -/
def HP66312A.meas_voltage_dc (inst : HP66312A) (bus : Bus) :
    Option (Option ℚ × HP66312A × Bus) :=
  match Instrument.measurement "MEAS:VOLT?" bus with
  | some (x, bus2) => some (x, inst, bus2)
  | Option.none => Option.none

/-- ONOFF_MAPPING of agilent53131A.py (same dict literal as the 34401A
driver). -/
def Agilent53131A.ONOFF_MAPPING : List (PyVal × String) :=
  dict_insert (dict_insert (dict_insert (dict_insert []
    (.bool true) "ON") (.bool false) "OFF") (.int 1) "ON") (.int 0) "OFF"

/-- The display setting of the Agilent 53131A: Instrument.setting with
command DISP:ENABLE, the strict_discrete_set validator and
ONOFF_MAPPING. -/
def Agilent53131A.display (value : PyVal) (bus : Bus) :
    Except PyErr Unit × Bus :=
  Instrument.setting "DISP:ENABLE %s" Agilent53131A.ONOFF_MAPPING value bus

/-- measure_freq_simple of Agilent53131A: writes the MEASURE:FREQ? SCPI
command only when the guard 0 < channel <= 3 holds; freq and resolution
enter the command through Python str.format and are taken here already
rendered as strings. -/
def Agilent53131A.measure_freq_simple (freq resolution : String)
    (channel : Int) (bus : Bus) : Bus :=
  if 0 < channel ∧ channel ≤ 3 then
    bus.write (":MEASURE:FREQ? " ++ freq ++ "Hz " ++ resolution ++
      ", (@" ++ toString channel ++ ")")
  else bus

/-- configure_freq of Agilent53131A: writes the CONF:FREQ SCPI command
only when the guard 0 < channel <= 3 holds. -/
def Agilent53131A.configure_freq (channel : Int) (bus : Bus) : Bus :=
  if 0 < channel ∧ channel ≤ 3 then
    bus.write (":CONF:FREQ (@" ++ toString channel ++ ")")
  else bus

/-- Channel.write of agilent53131A.py: writes the command prefixed with
":INP<number>:" through the parent instrument. -/
def Channel.write (number : Int) (command : String) (bus : Bus) : Bus :=
  bus.write (":INP" ++ toString number ++ ":" ++ command)

/-- Channel.ask of agilent53131A.py: performs the prefixed query through
the parent instrument (the Python method drops the reply and returns
None). -/
def Channel.ask (number : Int) (command : String) (bus : Bus) : Option Bus :=
  match bus.ask (":INP" ++ toString number ++ ":" ++ command) with
  | some (_, bus2) => some bus2
  | Option.none => Option.none

/-- Channel.values of agilent53131A.py: reads a set of values through
the parent instrument with the ":INP<number>:" prefix. -/
def Channel.values (number : Int) (command : String) (bus : Bus) :
    Option (List String × Bus) :=
  bus.values (":INP" ++ toString number ++ ":" ++ command)

/-- Channel3.write of agilent53131A.py (same body as Channel.write). -/
def Channel3.write (number : Int) (command : String) (bus : Bus) : Bus :=
  bus.write (":INP" ++ toString number ++ ":" ++ command)

/-- Channel3.ask of agilent53131A.py (same body as Channel.ask). -/
def Channel3.ask (number : Int) (command : String) (bus : Bus) : Option Bus :=
  match bus.ask (":INP" ++ toString number ++ ":" ++ command) with
  | some (_, bus2) => some bus2
  | Option.none => Option.none

/-- Channel3.values of agilent53131A.py (same body as Channel.values). -/
def Channel3.values (number : Int) (command : String) (bus : Bus) :
    Option (List String × Bus) :=
  bus.values (":INP" ++ toString number ++ ":" ++ command)

/-- One formatted error message of check_errors: the instrument prefix,
the raw first reply field (the error code) and the second field (the
error text), joined as in the source format string. -/
def formatErrmsg (pfx e0 e1 : String) : String :=
  pfx ++ ": " ++ e0 ++ ": " ++ e1

/-- The check_errors polling loop shared verbatim by acs400.py,
hp66312A.py and agilent53131A.py, recursing over the pending replies.
Each iteration issues one SYST:ERR? query via values(); a reply whose
first field converts by int() to a nonzero code is formatted and
collected, a zero code stops the loop.  Option.none models the Python
run raising: int() failing on the first field, the reply having no
second field, or the reply queue running dry (the bus blocking). -/
def check_errors_loop (pfx : String) (log : List String) :
    List String → Option (List String × Bus)
  | [] => Option.none
  | r :: rest =>
      match parse_int_string ((splitComma r).headD "") with
      | Option.none => Option.none
      | some c =>
          if c = 0 then some ([], Bus.mk (log ++ ["SYST:ERR?"]) rest)
          else
            match (splitComma r).drop 1 with
            | [] => Option.none
            | e1 :: _ =>
                match check_errors_loop pfx (log ++ ["SYST:ERR?"]) rest with
                | some (msgs, bus2) =>
                    some (formatErrmsg pfx ((splitComma r).headD "") e1
                      :: msgs, bus2)
                | Option.none => Option.none

/-- check_errors of ACS400 (note the source formats its messages with the
copy-pasted prefix "Agilent 34401A"). -/
def ACS400.check_errors (bus : Bus) : Option (List String × Bus) :=
  check_errors_loop "Agilent 34401A" bus.log bus.replies

/-- check_errors of HP66312A. -/
def HP66312A.check_errors (bus : Bus) : Option (List String × Bus) :=
  check_errors_loop "HP 66312A" bus.log bus.replies

/-- check_errors of Agilent53131A. -/
def Agilent53131A.check_errors (bus : Bus) : Option (List String × Bus) :=
  check_errors_loop "Agilent 53131A" bus.log bus.replies

/-- The unit suffix appended by the __str__ methods: Python appends
" unit" only when self.unit is truthy (not None and not empty). -/
def unitSuffix : Option String → String
  | some u => if u = "" then "" else " " ++ u
  | Option.none => ""

/-- Stand-in rendering of a modelled float (the %g format and repr of
CPython).  Its exact digit string is machine-float detail immaterial
here; what matters is that it is a function of the value alone. -/
def pyFloatG (q : ℚ) : String :=
  toString q.num ++ "/" ++ toString q.den

/-- Convert each element of a Python list by float(), stopping at the
first exception, as the list comprehensions of parameters.py do. -/
def floats_of : List PyVal → Except PyErr (List ℚ)
  | [] => .ok []
  | x :: xs =>
      match py_float x with
      | .error e => .error e
      | .ok q =>
          match floats_of xs with
          | .error e => .error e
          | .ok qs => .ok (q :: qs)

/-- IntegerParameter of experiment/parameters.py: name, unit, bounds
(floats in the source, rationals here), the default and the current
_value slot (PyVal.none when unset). -/
structure IntegerParameter where
  name : String
  unit : Option String
  minimum : ℚ
  maximum : ℚ
  default : PyVal
  _value : PyVal
deriving Repr

/-- Parameter.is_set: the _value slot is not None. -/
def IntegerParameter.is_set (p : IntegerParameter) : Bool :=
  match p._value with
  | .none => false
  | _ => true

/-- The IntegerParameter value getter: int(self._value) when set, else
ValueError. -/
def IntegerParameter.value_get (p : IntegerParameter) : Except PyErr Int :=
  if p.is_set then py_int p._value
  else .error (.valueError "Parameter value is not set")

/-- The IntegerParameter value setter: convert by int() (a ValueError is
re-raised with the parameter message, any other conversion exception
propagates), then range-check against minimum and maximum, and only then
store. -/
def IntegerParameter.value_set (p : IntegerParameter) (value : PyVal) :
    Except PyErr IntegerParameter :=
  match py_int value with
  | .error (.valueError _) =>
      .error (.valueError (pyFormatS
        "IntegerParameter given non-integer value of type '%s'"
        (pyTypeStr value)))
  | .error e => .error e
  | .ok n =>
      if (n : ℚ) < p.minimum then
        .error (.valueError "IntegerParameter value is below the minimum")
      else if (n : ℚ) > p.maximum then
        .error (.valueError "IntegerParameter value is above the maximum")
      else .ok { p with _value := .int n }

/-- IntegerParameter.__str__: empty when unset, else the value through
the %d format followed by the unit when truthy. -/
def IntegerParameter.toStr (p : IntegerParameter) : Except PyErr String :=
  if p.is_set then
    match p._value with
    | .int n => .ok (toString n ++ unitSuffix p.unit)
    | .bool b => .ok ((if b then "1" else "0") ++ unitSuffix p.unit)
    | .float q => .ok (toString (q.num.tdiv q.den) ++ unitSuffix p.unit)
    | _ => .error (.typeError "%d format requires a number")
  else .ok ""

/-- The state of an IntegerParameter after an assignment attempt: the
new state on success, the old state when the setter raised (a Python
exception leaves the object as it was). -/
def IntegerParameter.trySet (p : IntegerParameter) (value : PyVal) :
    IntegerParameter :=
  match p.value_set value with
  | .ok p2 => p2
  | .error _ => p

/-- FloatParameter of experiment/parameters.py. -/
structure FloatParameter where
  name : String
  unit : Option String
  minimum : ℚ
  maximum : ℚ
  default : PyVal
  _value : PyVal
deriving Repr

/-- Parameter.is_set for FloatParameter. -/
def FloatParameter.is_set (p : FloatParameter) : Bool :=
  match p._value with
  | .none => false
  | _ => true

/-- The FloatParameter value getter: float(self._value) when set, else
ValueError. -/
def FloatParameter.value_get (p : FloatParameter) : Except PyErr ℚ :=
  if p.is_set then py_float p._value
  else .error (.valueError "Parameter value is not set")

/-- The FloatParameter value setter: convert by float() (ValueError
re-raised with the parameter message, other exceptions propagate), then
range-check, and only then store. -/
def FloatParameter.value_set (p : FloatParameter) (value : PyVal) :
    Except PyErr FloatParameter :=
  match py_float value with
  | .error (.valueError _) =>
      .error (.valueError (pyFormatS
        "FloatParameter given non-float value of type '%s'"
        (pyTypeStr value)))
  | .error e => .error e
  | .ok x =>
      if x < p.minimum then
        .error (.valueError "FloatParameter value is below the minimum")
      else if x > p.maximum then
        .error (.valueError "FloatParameter value is above the maximum")
      else .ok { p with _value := .float x }

/-- FloatParameter.__str__: empty when unset, else the value through the
%g format followed by the unit when truthy. -/
def FloatParameter.toStr (p : FloatParameter) : Except PyErr String :=
  if p.is_set then
    match p._value with
    | .float q => .ok (pyFloatG q ++ unitSuffix p.unit)
    | .int n => .ok (pyFloatG (n : ℚ) ++ unitSuffix p.unit)
    | .bool b => .ok (pyFloatG (if b then 1 else 0) ++ unitSuffix p.unit)
    | _ => .error (.typeError "%g format requires a number")
  else .ok ""

/-- The state of a FloatParameter after an assignment attempt. -/
def FloatParameter.trySet (p : FloatParameter) (value : PyVal) :
    FloatParameter :=
  match p.value_set value with
  | .ok p2 => p2
  | .error _ => p

/-- BooleanParameter of experiment/parameters.py. -/
structure BooleanParameter where
  name : String
  default : PyVal
  _value : PyVal
deriving Repr

/-- Parameter.is_set for BooleanParameter. -/
def BooleanParameter.is_set (p : BooleanParameter) : Bool :=
  match p._value with
  | .none => false
  | _ => true

/-- The BooleanParameter value getter: the stored value unchanged when
set. -/
def BooleanParameter.value_get (p : BooleanParameter) : Except PyErr PyVal :=
  if p.is_set then .ok p._value
  else .error (.valueError "Parameter value is not set")

/-- The BooleanParameter value setter.  The source wraps
self._value = bool(value) in try/except ValueError, but bool() succeeds
on every value (it computes truthiness), so the except branch is
unreachable and the setter always stores bool(value). -/
def BooleanParameter.value_set (p : BooleanParameter) (value : PyVal) :
    Except PyErr BooleanParameter :=
  .ok { p with _value := .bool (py_bool value) }

/-- VectorParameter of experiment/parameters.py: name, length, unit,
default and the current _value slot. -/
structure VectorParameter where
  name : String
  unit : Option String
  default : PyVal
  _length : Nat
  _value : PyVal
deriving Repr

/-- Parameter.is_set for VectorParameter. -/
def VectorParameter.is_set (p : VectorParameter) : Bool :=
  match p._value with
  | .none => false
  | _ => true

/-- The VectorParameter value getter: [float(ve) for ve in self._value]
when set.  Iterating a string yields its characters; iterating a
non-iterable raises TypeError. -/
def VectorParameter.value_get (p : VectorParameter) :
    Except PyErr (List ℚ) :=
  if p.is_set then
    match p._value with
    | .list xs => floats_of xs
    | .str s => floats_of (s.data.map (fun c => .str (String.singleton c)))
    | _ => .error (.typeError "value is not iterable")
  else .error (.valueError "Parameter value is not set")

/-- The VectorParameter value setter: a string input must be bracketed
and is split on commas, a list input is taken as is, anything else is a
ValueError; then the length is checked and every element converted by
float() (a ValueError from a conversion is re-raised with the parameter
message, other exceptions propagate); only then is the vector stored. -/
def VectorParameter.value_set (p : VectorParameter) (value : PyVal) :
    Except PyErr VectorParameter :=
  let raw : Except PyErr (List PyVal) :=
    match value with
    | .str s =>
        match s.data with
        | [] => .error (.indexError "string index out of range")
        | c0 :: _ =>
            if c0 ≠ '[' ∨ s.data.getLast? ≠ some ']' then
              .error (.valueError
                "VectorParameter must be passed a vector denoted by square brackets if initializing by string.")
            else
              .ok ((splitComma (String.mk ((s.data.drop 1).dropLast))).map
                PyVal.str)
    | .list xs => .ok xs
    | _ =>
        .error (.valueError (pyFormatS
          "VectorParameter given undesired value of type '%s'"
          (pyTypeStr value)))
  match raw with
  | .error e => .error e
  | .ok raw_list =>
      if raw_list.length ≠ p._length then
        .error (.valueError "VectorParameter given value of the wrong length")
      else
        match floats_of raw_list with
        | .ok qs => .ok { p with _value := .list (qs.map PyVal.float) }
        | .error (.valueError _) =>
            .error (.valueError
              "VectorParameter given input that could not be converted to floats.")
        | .error e => .error e

/-- VectorParameter.__str__: raises ValueError when unset, else the
stored vector rendered without spaces followed by the unit when
truthy. -/
def VectorParameter.toStr (p : VectorParameter) : Except PyErr String :=
  if p.is_set then
    match p.value_get with
    | .ok qs =>
        .ok ("[" ++ String.intercalate "," (qs.map pyFloatG) ++ "]" ++
          unitSuffix p.unit)
    | .error e => .error e
  else .error (.valueError "Parameter value is not set")

/-- The state of a VectorParameter after an assignment attempt. -/
def VectorParameter.trySet (p : VectorParameter) (value : PyVal) :
    VectorParameter :=
  match p.value_set value with
  | .ok p2 => p2
  | .error _ => p

/-- ListParameter of experiment/parameters.py: the optional list of
choices and the current _value slot. -/
structure ListParameter where
  name : String
  unit : Option String
  default : PyVal
  _choices : Option (List PyVal)
  _value : PyVal
deriving Repr

/-- ListParameter.is_set. -/
def ListParameter.is_set (p : ListParameter) : Bool :=
  match p._value with
  | .none => false
  | _ => true

/-- The ListParameter value getter. -/
def ListParameter.value_get (p : ListParameter) : Except PyErr PyVal :=
  if p.is_set then .ok p._value
  else .error (.valueError "Parameter value is not set")

/-- The ListParameter value setter: the assignment succeeds exactly when
choices is not None and the value is a member (by Python ==) of it;
otherwise ValueError. -/
def ListParameter.value_set (p : ListParameter) (value : PyVal) :
    Except PyErr ListParameter :=
  match p._choices with
  | some cs =>
      if cs.any (fun c => pyEq c value) then .ok { p with _value := value }
      else .error (.valueError "Invalid choice for parameter.")
  | Option.none => .error (.valueError "Invalid choice for parameter.")

/-!  Theorems settling the claims.  -/

/-- C1: assigning b to the display setting of Agilent34401A or
Agilent53131A writes exactly "DISP:ENABLE ON" when b maps to ON (True,
1) and exactly "DISP:ENABLE OFF" when b maps to OFF (False, 0), and any
value outside the declared value-mapping is rejected by the
strict_discrete_set validator with an exception and nothing written to
the bus. -/
theorem display_setting_on_off (bus : Bus) (v : PyVal) :
    Agilent34401A.display (.bool true) bus
      = (.ok (), bus.write "DISP:ENABLE ON") ∧
    Agilent34401A.display (.int 1) bus
      = (.ok (), bus.write "DISP:ENABLE ON") ∧
    Agilent34401A.display (.bool false) bus
      = (.ok (), bus.write "DISP:ENABLE OFF") ∧
    Agilent34401A.display (.int 0) bus
      = (.ok (), bus.write "DISP:ENABLE OFF") ∧
    Agilent53131A.display (.bool true) bus
      = (.ok (), bus.write "DISP:ENABLE ON") ∧
    Agilent53131A.display (.int 1) bus
      = (.ok (), bus.write "DISP:ENABLE ON") ∧
    Agilent53131A.display (.bool false) bus
      = (.ok (), bus.write "DISP:ENABLE OFF") ∧
    Agilent53131A.display (.int 0) bus
      = (.ok (), bus.write "DISP:ENABLE OFF") ∧
    ((Agilent34401A.ONOFF_MAPPING.map Prod.fst).any
        (fun k => pyEq k v) = false →
      (∃ m, Agilent34401A.display v bus = (.error (.valueError m), bus)) ∧
      (∃ m, Agilent53131A.display v bus = (.error (.valueError m), bus))) := by
  refine ⟨rfl, rfl, rfl, rfl, rfl, rfl, rfl, rfl, fun hv => ⟨?_, ?_⟩⟩
  · exact ⟨"Value is not in the discrete set", by
      simp [Agilent34401A.display, Instrument.setting, strict_discrete_set, hv]⟩
  · exact ⟨"Value is not in the discrete set", by
      have hv2 : (Agilent53131A.ONOFF_MAPPING.map Prod.fst).any
          (fun k => pyEq k v) = false := hv
      simp [Agilent53131A.display, Instrument.setting, strict_discrete_set, hv2]⟩

/-- Witness for C1 at concrete inputs: True writes DISP:ENABLE ON on an
empty bus, and the string "x" (outside the mapping) is rejected with the
bus unchanged. -/
theorem display_setting_on_off_witness :
    Agilent34401A.display (.bool true) (Bus.mk [] [])
      = (.ok (), Bus.mk ["DISP:ENABLE ON"] []) ∧
    (∃ m, Agilent53131A.display (.str "x") (Bus.mk [] [])
      = (.error (.valueError m), Bus.mk [] [])) :=
  ⟨(display_setting_on_off (Bus.mk [] []) (.str "x")).1,
   ((display_setting_on_off (Bus.mk [] []) (.str "x")).2.2.2.2.2.2.2.2
     (by decide)).2⟩

/-- C2: each read of a measurement property sends that property's fixed
ASCII SCPI query string to the instrument and returns the single-line
textual response parsed into a number (shown for voltage_dc, current_ac
and resistance of Agilent34401A and meas_voltage_dc of HP66312A). -/
theorem measurement_properties_query_and_parse
    (inst : Agilent34401A) (hp : HP66312A) (bus : Bus)
    (r : String) (rs : List String) (h : bus.replies = r :: rs) :
    inst.voltage_dc bus = some (parse_float_string r, inst,
      Bus.mk (bus.log ++ ["MEAS:VOLT:DC? DEF,DEF"]) rs) ∧
    inst.current_ac bus = some (parse_float_string r, inst,
      Bus.mk (bus.log ++ ["MEAS:CURR:AC? DEF,DEF"]) rs) ∧
    inst.resistance bus = some (parse_float_string r, inst,
      Bus.mk (bus.log ++ ["MEAS:RES? DEF,DEF"]) rs) ∧
    hp.meas_voltage_dc bus = some (parse_float_string r, hp,
      Bus.mk (bus.log ++ ["MEAS:VOLT?"]) rs) := by
  obtain ⟨log, replies⟩ := bus
  cases h
  exact ⟨rfl, rfl, rfl, rfl⟩

/-- Witness for C2: on a bus whose pending reply is "2.5", voltage_dc
sends MEAS:VOLT:DC? DEF,DEF and returns the number 5/2. -/
theorem measurement_properties_query_and_parse_witness :
    (Agilent34401A.mk 0 "dmm").voltage_dc (Bus.mk [] ["2.5"])
      = some (some (mkRat 5 2), Agilent34401A.mk 0 "dmm",
          Bus.mk ["MEAS:VOLT:DC? DEF,DEF"] []) ∧
    parse_float_string "2.5" = some (mkRat 5 2) :=
  ⟨(measurement_properties_query_and_parse (Agilent34401A.mk 0 "dmm")
      (HP66312A.mk 0 "src") (Bus.mk [] ["2.5"]) "2.5" [] rfl).1.trans
      (by decide),
   by decide⟩

/-- C6: reading a measurement property performs a fresh query/reply
exchange every time and caches nothing: two consecutive reads issue two
identical queries, and each read leaves every field of the driver object
unchanged (shown for Agilent34401A.voltage_dc and
HP66312A.meas_voltage_dc). -/
theorem measurement_read_no_caching
    (inst : Agilent34401A) (hp : HP66312A) (bus : Bus)
    (r1 r2 : String) (rs : List String)
    (h : bus.replies = r1 :: r2 :: rs) :
    (inst.voltage_dc bus = some (parse_float_string r1, inst,
        Bus.mk (bus.log ++ ["MEAS:VOLT:DC? DEF,DEF"]) (r2 :: rs)) ∧
      inst.voltage_dc (Bus.mk (bus.log ++ ["MEAS:VOLT:DC? DEF,DEF"])
          (r2 :: rs))
        = some (parse_float_string r2, inst,
            Bus.mk (bus.log ++ ["MEAS:VOLT:DC? DEF,DEF",
              "MEAS:VOLT:DC? DEF,DEF"]) rs)) ∧
    (hp.meas_voltage_dc bus = some (parse_float_string r1, hp,
        Bus.mk (bus.log ++ ["MEAS:VOLT?"]) (r2 :: rs)) ∧
      hp.meas_voltage_dc (Bus.mk (bus.log ++ ["MEAS:VOLT?"]) (r2 :: rs))
        = some (parse_float_string r2, hp,
            Bus.mk (bus.log ++ ["MEAS:VOLT?", "MEAS:VOLT?"]) rs)) := by
  obtain ⟨log, replies⟩ := bus
  cases h
  refine ⟨⟨rfl, ?_⟩, rfl, ?_⟩ <;>
    simp [Agilent34401A.voltage_dc, HP66312A.meas_voltage_dc,
      Instrument.measurement, Bus.ask]

/-- Witness for C6: two consecutive voltage_dc reads on a concrete bus
issue the same query twice and leave the driver object untouched. -/
theorem measurement_read_no_caching_witness :
    (Agilent34401A.mk 7 "dmm").voltage_dc
        (Bus.mk [] ["1.0", "2.0"])
      = some (some (mkRat 1 1), Agilent34401A.mk 7 "dmm",
          Bus.mk ["MEAS:VOLT:DC? DEF,DEF"] ["2.0"]) ∧
    (Agilent34401A.mk 7 "dmm").voltage_dc
        (Bus.mk ["MEAS:VOLT:DC? DEF,DEF"] ["2.0"])
      = some (some (mkRat 2 1), Agilent34401A.mk 7 "dmm",
          Bus.mk ["MEAS:VOLT:DC? DEF,DEF", "MEAS:VOLT:DC? DEF,DEF"] []) :=
  ⟨((measurement_read_no_caching (Agilent34401A.mk 7 "dmm")
      (HP66312A.mk 0 "src") (Bus.mk [] ["1.0", "2.0"]) "1.0" "2.0" []
      rfl).1.1).trans (by decide),
   ((measurement_read_no_caching (Agilent34401A.mk 7 "dmm")
      (HP66312A.mk 0 "src") (Bus.mk [] ["1.0", "2.0"]) "1.0" "2.0" []
      rfl).1.2).trans (by decide)⟩

/-- A SYST:ERR? reply whose first comma-separated field converts by
int() to 0. -/
def zeroReply (r : String) : Prop :=
  parse_int_string ((splitComma r).headD "") = some 0

instance (r : String) : Decidable (zeroReply r) := by
  unfold zeroReply; infer_instance

/-- A well-formed nonzero SYST:ERR? reply: the first field converts by
int() to a nonzero code and a second field (the error text) exists. -/
def nonzeroReply (r : String) : Bool :=
  (match parse_int_string ((splitComma r).headD "") with
   | some c => c != 0
   | Option.none => false) && !((splitComma r).drop 1).isEmpty

/-- The message check_errors formats for one nonzero reply: the
instrument prefix, the code field and the text field. -/
def fmtReply (pfx : String) (r : String) : String :=
  formatErrmsg pfx ((splitComma r).headD "") (((splitComma r).drop 1).headD "")

theorem check_errors_loop_spec (pfx : String) (rs1 : List String)
    (r0 : String) (rs2 : List String) (log : List String)
    (h1 : ∀ r ∈ rs1, nonzeroReply r = true) (h0 : zeroReply r0) :
    check_errors_loop pfx log (rs1 ++ r0 :: rs2)
      = some (rs1.map (fmtReply pfx),
          Bus.mk (log ++ List.replicate (rs1.length + 1) "SYST:ERR?") rs2) := by
  induction rs1 generalizing log with
  | nil =>
      rw [zeroReply] at h0
      simp only [List.nil_append]
      unfold check_errors_loop
      rw [h0]
      simp [List.replicate_succ]
  | cons r rs ih =>
      have hr := h1 r (List.mem_cons_self r rs)
      unfold nonzeroReply at hr
      unfold check_errors_loop
      rcases hc : parse_int_string ((splitComma r).headD "") with _ | c
      · rw [hc] at hr; simp at hr
      · rw [hc] at hr
        simp only [Bool.and_eq_true, bne_iff_ne, ne_eq] at hr
        rcases hd : (splitComma r).drop 1 with _ | ⟨e1, es⟩
        · rw [hd] at hr; simp at hr
        · have ih2 := ih (log ++ ["SYST:ERR?"])
            (fun x hx => h1 x (List.mem_cons_of_mem r hx))
          simp only [List.cons_append, hc, hd, ih2, hr.1, if_neg hr.1]
          refine congrArg some (Prod.ext ?_ ?_)
          · simp [fmtReply, hd]
          · simp [List.replicate_succ, List.append_assoc]

/-- C3: for every reply sequence containing a zero-code reply,
check_errors (of ACS400, HP66312A and Agilent53131A) terminates and
returns, in order, one formatted error message (code and text) for
exactly each reply preceding the first zero-code reply, and issues no
further SYST:ERR? query after receiving the zero-code reply: exactly
length rs1 + 1 queries are logged and the replies after the zero-code
one are left on the bus. -/
theorem check_errors_stops_at_first_zero (bus : Bus)
    (rs1 : List String) (r0 : String) (rs2 : List String)
    (h : bus.replies = rs1 ++ r0 :: rs2)
    (h1 : ∀ r ∈ rs1, nonzeroReply r = true) (h0 : zeroReply r0) :
    ACS400.check_errors bus
      = some (rs1.map (fmtReply "Agilent 34401A"),
          Bus.mk (bus.log ++ List.replicate (rs1.length + 1) "SYST:ERR?")
            rs2) ∧
    HP66312A.check_errors bus
      = some (rs1.map (fmtReply "HP 66312A"),
          Bus.mk (bus.log ++ List.replicate (rs1.length + 1) "SYST:ERR?")
            rs2) ∧
    Agilent53131A.check_errors bus
      = some (rs1.map (fmtReply "Agilent 53131A"),
          Bus.mk (bus.log ++ List.replicate (rs1.length + 1) "SYST:ERR?")
            rs2) := by
  refine ⟨?_, ?_, ?_⟩ <;>
    simp only [ACS400.check_errors, HP66312A.check_errors,
      Agilent53131A.check_errors, h] <;>
    exact check_errors_loop_spec _ rs1 r0 rs2 bus.log h1 h0

/-- Witness for C3: polling a bus holding one nonzero error reply then
the zero reply returns exactly one formatted message and issues exactly
two queries. -/
theorem check_errors_stops_at_first_zero_witness :
    HP66312A.check_errors (Bus.mk [] ["-113,Undefined header", "0,No error"])
      = some (["HP 66312A: -113: Undefined header"],
          Bus.mk ["SYST:ERR?", "SYST:ERR?"] []) :=
  ((check_errors_stops_at_first_zero
      (Bus.mk [] ["-113,Undefined header", "0,No error"])
      ["-113,Undefined header"] "0,No error" [] rfl
      (by decide) (by decide)).2.1).trans (by decide)

/-- C4: for IntegerParameter (resp. FloatParameter), the value setter
stores the converted value exactly when it lies within
[minimum, maximum]; it raises ValueError when the converted value is out
of bounds and when a conversion raises ValueError; the stored value is
then returned by the value getter. -/
theorem numeric_parameter_bounds (p : IntegerParameter)
    (q : FloatParameter) (v w : PyVal) :
    (∀ n : Int, py_int v = .ok n →
        ((p.minimum ≤ (n : ℚ) ∧ (n : ℚ) ≤ p.maximum →
          p.value_set v = .ok { p with _value := .int n } ∧
          IntegerParameter.value_get { p with _value := .int n } = .ok n) ∧
        ((n : ℚ) < p.minimum ∨ p.maximum < (n : ℚ) →
          ∃ m, p.value_set v = .error (.valueError m)) ∧
        (∀ p2, p.value_set v = .ok p2 →
          p2 = { p with _value := .int n } ∧
          p.minimum ≤ (n : ℚ) ∧ (n : ℚ) ≤ p.maximum))) ∧
    (∀ m, py_int v = .error (.valueError m) →
        ∃ m2, p.value_set v = .error (.valueError m2)) ∧
    (∀ x : ℚ, py_float w = .ok x →
        ((q.minimum ≤ x ∧ x ≤ q.maximum →
          q.value_set w = .ok { q with _value := .float x } ∧
          FloatParameter.value_get { q with _value := .float x } = .ok x) ∧
        (x < q.minimum ∨ q.maximum < x →
          ∃ m, q.value_set w = .error (.valueError m)) ∧
        (∀ q2, q.value_set w = .ok q2 →
          q2 = { q with _value := .float x } ∧
          q.minimum ≤ x ∧ x ≤ q.maximum))) ∧
    (∀ m, py_float w = .error (.valueError m) →
        ∃ m2, q.value_set w = .error (.valueError m2)) := by
  refine ⟨fun n hn => ⟨fun hb => ⟨?_, rfl⟩, fun hb => ?_, fun p2 h2 => ?_⟩,
    fun m hm => ?_,
    fun x hx => ⟨fun hb => ⟨?_, rfl⟩, fun hb => ?_, fun q2 h2 => ?_⟩,
    fun m hm => ?_⟩
  · unfold IntegerParameter.value_set
    rw [hn]
    dsimp only
    rw [if_neg (not_lt.mpr hb.1), if_neg (not_lt.mpr hb.2)]
  · unfold IntegerParameter.value_set
    rw [hn]
    dsimp only
    by_cases h2 : (n : ℚ) < p.minimum
    · exact ⟨_, by rw [if_pos h2]⟩
    · exact ⟨_, by rw [if_neg h2, if_pos (hb.resolve_left h2)]⟩
  · unfold IntegerParameter.value_set at h2
    rw [hn] at h2
    dsimp only at h2
    split_ifs at h2 with hlo hhi
    exact ⟨(Except.ok.inj h2).symm, not_lt.mp hlo, not_lt.mp hhi⟩
  · unfold IntegerParameter.value_set
    rw [hm]
    exact ⟨_, rfl⟩
  · unfold FloatParameter.value_set
    rw [hx]
    dsimp only
    rw [if_neg (not_lt.mpr hb.1), if_neg (not_lt.mpr hb.2)]
  · unfold FloatParameter.value_set
    rw [hx]
    dsimp only
    by_cases h2 : x < q.minimum
    · exact ⟨_, by rw [if_pos h2]⟩
    · exact ⟨_, by rw [if_neg h2, if_pos (hb.resolve_left h2)]⟩
  · unfold FloatParameter.value_set at h2
    rw [hx] at h2
    dsimp only at h2
    split_ifs at h2 with hlo hhi
    exact ⟨(Except.ok.inj h2).symm, not_lt.mp hlo, not_lt.mp hhi⟩
  · unfold FloatParameter.value_set
    rw [hm]
    exact ⟨_, rfl⟩

/-- Witness for C4: an IntegerParameter with bounds [-10, 10] accepts
the string "5" and its getter then returns 5; a FloatParameter with the
same bounds accepts "2.5" and stores 5/2; "7up" is rejected with a
ValueError. -/
theorem numeric_parameter_bounds_witness :
    (IntegerParameter.mk "i" Option.none (mkRat (-10) 1) (mkRat 10 1)
        .none .none).value_set (.str "5")
      = .ok (IntegerParameter.mk "i" Option.none (mkRat (-10) 1)
          (mkRat 10 1) .none (.int 5)) ∧
    IntegerParameter.value_get (IntegerParameter.mk "i" Option.none
        (mkRat (-10) 1) (mkRat 10 1) .none (.int 5)) = .ok 5 ∧
    (FloatParameter.mk "f" Option.none (mkRat (-10) 1) (mkRat 10 1)
        .none .none).value_set (.str "2.5")
      = .ok (FloatParameter.mk "f" Option.none (mkRat (-10) 1)
          (mkRat 10 1) .none (.float (mkRat 5 2))) ∧
    (∃ m2, (IntegerParameter.mk "i" Option.none (mkRat (-10) 1)
        (mkRat 10 1) .none .none).value_set (.str "7up")
      = .error (.valueError m2)) := by
  have h := numeric_parameter_bounds
    (IntegerParameter.mk "i" Option.none (mkRat (-10) 1) (mkRat 10 1)
      .none .none)
    (FloatParameter.mk "f" Option.none (mkRat (-10) 1) (mkRat 10 1)
      .none .none) (.str "5") (.str "2.5")
  have h2 := numeric_parameter_bounds
    (IntegerParameter.mk "i" Option.none (mkRat (-10) 1) (mkRat 10 1)
      .none .none)
    (FloatParameter.mk "f" Option.none (mkRat (-10) 1) (mkRat 10 1)
      .none .none) (.str "7up") (.str "2.5")
  refine ⟨((h.1 5 (by decide)).1 ⟨by decide, by decide⟩).1,
    ((h.1 5 (by decide)).1 ⟨by decide, by decide⟩).2,
    ((h.2.2.1 (mkRat 5 2) (by decide)).1 ⟨by decide, by decide⟩).1,
    h2.2.1 "invalid literal for int() with base 10: 7up" (by decide)⟩

/-- C5 (code-bug evidence): the BooleanParameter setter accepts the
non-boolean string "abc" and stores bool of it (True) instead of raising
ValueError: bool() never raises ValueError, so the except branch the
source keeps for that purpose is unreachable.  Boolean inputs are stored
unchanged, as the claim also says. -/
theorem boolean_parameter_accepts_nonboolean :
    (BooleanParameter.mk "b" .none .none).value_set (.str "abc")
      = .ok (BooleanParameter.mk "b" .none (.bool true)) ∧
    (BooleanParameter.mk "b" .none .none).value_set (.bool false)
      = .ok (BooleanParameter.mk "b" .none (.bool false)) ∧
    (BooleanParameter.mk "b" .none .none).value_set (.bool true)
      = .ok (BooleanParameter.mk "b" .none (.bool true)) :=
  ⟨rfl, rfl, rfl⟩

/-- C7: for every channel number n and command string c, the write, ask
and values methods of Channel and Channel3 exchange exactly the string
":INP" ++ n ++ ":" ++ c with the parent instrument's bus: write logs
exactly that command, ask and values log it and consume exactly one
reply. -/
theorem channel_methods_prefix_command (n : Int) (c : String) (bus : Bus)
    (r : String) (rs : List String) :
    Channel.write n c bus = bus.write (":INP" ++ toString n ++ ":" ++ c) ∧
    Channel3.write n c bus = bus.write (":INP" ++ toString n ++ ":" ++ c) ∧
    (bus.replies = r :: rs →
      Channel.ask n c bus
        = some (Bus.mk (bus.log ++ [":INP" ++ toString n ++ ":" ++ c]) rs) ∧
      Channel.values n c bus
        = some (splitComma r,
            Bus.mk (bus.log ++ [":INP" ++ toString n ++ ":" ++ c]) rs) ∧
      Channel3.ask n c bus
        = some (Bus.mk (bus.log ++ [":INP" ++ toString n ++ ":" ++ c]) rs) ∧
      Channel3.values n c bus
        = some (splitComma r,
            Bus.mk (bus.log ++ [":INP" ++ toString n ++ ":" ++ c]) rs)) := by
  obtain ⟨log, replies⟩ := bus
  refine ⟨rfl, rfl, fun h => ?_⟩
  cases h
  exact ⟨rfl, rfl, rfl, rfl⟩

/-- Witness for C7: on channel 2, values("IMP?") exchanges exactly
":INP2:IMP?" and returns the split reply. -/
theorem channel_methods_prefix_command_witness :
    Channel.values 2 "IMP?" (Bus.mk [] ["50"])
      = some (["50"], Bus.mk [":INP2:IMP?"] []) :=
  (((channel_methods_prefix_command 2 "IMP?" (Bus.mk [] ["50"]) "50" []
    ).2.2 rfl).2.1).trans (by decide)

/-- C9: for every channel number outside 1..3, measure_freq_simple and
configure_freq of Agilent53131A write nothing to the bus and raise no
error: the bus (and hence the instrument and driver state) is returned
unchanged. -/
theorem invalid_channel_silent_noop (freq resolution : String)
    (channel : Int) (bus : Bus) (h : channel < 1 ∨ 3 < channel) :
    Agilent53131A.measure_freq_simple freq resolution channel bus = bus ∧
    Agilent53131A.configure_freq channel bus = bus := by
  have hc : ¬ (0 < channel ∧ channel ≤ 3) := by
    rintro ⟨h1, h2⟩
    rcases h with h | h <;> omega
  constructor
  · unfold Agilent53131A.measure_freq_simple
    rw [if_neg hc]
  · unfold Agilent53131A.configure_freq
    rw [if_neg hc]

/-- Witness for C9: channel 4 leaves a concrete bus untouched. -/
theorem invalid_channel_silent_noop_witness :
    Agilent53131A.measure_freq_simple "1000" "1" 4 (Bus.mk [] [])
      = Bus.mk [] [] ∧
    Agilent53131A.configure_freq 4 (Bus.mk [] []) = Bus.mk [] [] :=
  invalid_channel_silent_noop "1000" "1" 4 (Bus.mk [] [])
    (Or.inr (by decide))

/-- C8: whenever a value setter of IntegerParameter, FloatParameter or
VectorParameter raises ValueError, the stored value is unchanged: the
object after the failed assignment is the old object, so is_set, the
value getter and __str__ give the same results as before. -/
theorem parameter_setter_atomic_on_error (p : IntegerParameter)
    (q : FloatParameter) (r : VectorParameter) (u v w : PyVal) :
    (∀ m, p.value_set u = .error (.valueError m) →
      p.trySet u = p ∧ (p.trySet u).is_set = p.is_set ∧
      (p.trySet u).value_get = p.value_get ∧
      (p.trySet u).toStr = p.toStr) ∧
    (∀ m, q.value_set v = .error (.valueError m) →
      q.trySet v = q ∧ (q.trySet v).is_set = q.is_set ∧
      (q.trySet v).value_get = q.value_get ∧
      (q.trySet v).toStr = q.toStr) ∧
    (∀ m, r.value_set w = .error (.valueError m) →
      r.trySet w = r ∧ (r.trySet w).is_set = r.is_set ∧
      (r.trySet w).value_get = r.value_get ∧
      (r.trySet w).toStr = r.toStr) := by
  refine ⟨fun m hm => ?_, fun m hm => ?_, fun m hm => ?_⟩
  · have he : p.trySet u = p := by
      unfold IntegerParameter.trySet
      rw [hm]
    exact ⟨he, by rw [he], by rw [he], by rw [he]⟩
  · have he : q.trySet v = q := by
      unfold FloatParameter.trySet
      rw [hm]
    exact ⟨he, by rw [he], by rw [he], by rw [he]⟩
  · have he : r.trySet w = r := by
      unfold VectorParameter.trySet
      rw [hm]
    exact ⟨he, by rw [he], by rw [he], by rw [he]⟩

/-- Witness for C8: an out-of-range assignment to an IntegerParameter
with bounds [0, 1], a non-float string assigned to a FloatParameter and
an int assigned to a VectorParameter each raise ValueError and leave the
parameter exactly as it was. -/
theorem parameter_setter_atomic_on_error_witness :
    (IntegerParameter.mk "i" Option.none (mkRat 0 1) (mkRat 1 1)
        .none .none).trySet (.str "5")
      = IntegerParameter.mk "i" Option.none (mkRat 0 1) (mkRat 1 1)
          .none .none ∧
    (FloatParameter.mk "f" Option.none (mkRat 0 1) (mkRat 1 1)
        .none .none).trySet (.str "x")
      = FloatParameter.mk "f" Option.none (mkRat 0 1) (mkRat 1 1)
          .none .none ∧
    (VectorParameter.mk "v" Option.none .none 3 .none).trySet (.int 3)
      = VectorParameter.mk "v" Option.none .none 3 .none := by
  have h := parameter_setter_atomic_on_error
    (IntegerParameter.mk "i" Option.none (mkRat 0 1) (mkRat 1 1)
      .none .none)
    (FloatParameter.mk "f" Option.none (mkRat 0 1) (mkRat 1 1)
      .none .none)
    (VectorParameter.mk "v" Option.none .none 3 .none)
    (.str "5") (.str "x") (.int 3)
  exact ⟨(h.1 "IntegerParameter value is above the maximum" rfl).1,
    (h.2.1 "FloatParameter given non-float value of type '<class 'str'>'"
      rfl).1,
    (h.2.2 "VectorParameter given undesired value of type '<class 'int'>'"
      rfl).1⟩

/-- C10: a ListParameter with choices None rejects every assignment with
ValueError; an assignment succeeds exactly when choices is a list and
the value is a member of it, and then stores the value itself. -/
theorem list_parameter_requires_choice (p : ListParameter) (v : PyVal) :
    (p._choices = Option.none →
      ∃ m, p.value_set v = .error (.valueError m)) ∧
    ((∃ p2, p.value_set v = .ok p2) ↔
      ∃ cs, p._choices = some cs ∧ cs.any (fun c => pyEq c v) = true) ∧
    (∀ p2, p.value_set v = .ok p2 → p2 = { p with _value := v }) := by
  refine ⟨fun h => ?_, ⟨fun h2 => ?_, fun h3 => ?_⟩, fun p2 h2 => ?_⟩
  · unfold ListParameter.value_set
    rw [h]
    exact ⟨_, rfl⟩
  · obtain ⟨p2, h2⟩ := h2
    unfold ListParameter.value_set at h2
    rcases hch : p._choices with _ | cs
    · rw [hch] at h2; cases h2
    · rw [hch] at h2
      dsimp only at h2
      by_cases hmem : cs.any (fun c => pyEq c v) = true
      · exact ⟨cs, rfl, hmem⟩
      · rw [if_neg hmem] at h2; cases h2
  · obtain ⟨cs, hcs, hmem⟩ := h3
    unfold ListParameter.value_set
    rw [hcs]
    dsimp only
    rw [if_pos hmem]
    exact ⟨_, rfl⟩
  · unfold ListParameter.value_set at h2
    rcases hch : p._choices with _ | cs
    · rw [hch] at h2; cases h2
    · rw [hch] at h2
      dsimp only at h2
      by_cases hmem : cs.any (fun c => pyEq c v) = true
      · rw [if_pos hmem] at h2
        exact (Except.ok.inj h2).symm
      · rw [if_neg hmem] at h2; cases h2

/-- Witness for C10: with choices ["a", "b"] the value "a" is stored;
with choices None the same assignment raises ValueError. -/
theorem list_parameter_requires_choice_witness :
    (∃ p2, (ListParameter.mk "l" Option.none .none
        (some [.str "a", .str "b"]) .none).value_set (.str "a")
      = .ok p2) ∧
    (∃ m, (ListParameter.mk "l" Option.none .none Option.none
        .none).value_set (.str "a") = .error (.valueError m)) :=
  ⟨(list_parameter_requires_choice
      (ListParameter.mk "l" Option.none .none
        (some [.str "a", .str "b"]) .none) (.str "a")).2.1.mpr
      ⟨[.str "a", .str "b"], rfl, by decide⟩,
   (list_parameter_requires_choice
      (ListParameter.mk "l" Option.none .none Option.none .none)
      (.str "a")).1 rfl⟩
